import Mathlib

set_option maxHeartbeats 2000000
set_option maxRecDepth 8000

/-!
Shallow embedding of `planets.py`, a Blender script that builds a toy solar
system (sun, planets, orbit rings, emission materials, camera animation) and
renders it.  The Blender scene graph is modelled by the `Scene` record; every
mutating host-API call is a `Scene → Scene` primitive that also appends an
`Event` to the scene's trace.  Each such call goes through `call`, which
consults a failure oracle `fails : Nat → Bool` (indexed by a running host-call
counter) and raises — returns `Except.error` carrying the partial state — when
the oracle says the host would raise.  The script installs no handler, so
`Except` bind alone propagates any error to the top.

The Python `random.random()` stream is modelled symbolically: the k-th draw is
the formal expression `QExpr.var k`, and every numeric scene value is a
`QExpr`, an exact expression over the draws with rational constants.  A
valuation `ρ : Nat → ℚ` assigning the k-th drawn value to `QExpr.var k`
recovers the concrete numbers through `QExpr.eval ρ`; `random.random()` draws
lie in `[0, 1)`, which theorems assume as `0 ≤ ρ i < 1`.  Angle values
computed from `math.pi` are represented exactly by `PiLin`, pairs `q + p·π`
of such expressions.
-/

namespace Planets

/-- Exact symbolic numeric value: an expression over the random draws
(`var k` is the k-th value returned by `random.random()`) with rational
constants and the arithmetic the script uses. -/
inductive QExpr
  | const (q : ℚ)
  | var (i : Nat)
  | add (a b : QExpr)
  | sub (a b : QExpr)
  | mul (a b : QExpr)
  | neg (a : QExpr)
  | div (a b : QExpr)
deriving DecidableEq

instance : Add QExpr := ⟨QExpr.add⟩
instance : Sub QExpr := ⟨QExpr.sub⟩
instance : Mul QExpr := ⟨QExpr.mul⟩
instance : Neg QExpr := ⟨QExpr.neg⟩
instance : Div QExpr := ⟨QExpr.div⟩
instance (n : Nat) : OfNat QExpr n := ⟨QExpr.const n⟩
instance : NatCast QExpr := ⟨fun n => QExpr.const n⟩

/-- The rational value of an expression under a valuation of the draws. -/
def QExpr.eval (ρ : Nat → ℚ) : QExpr → ℚ
  | .const q => q
  | .var i => ρ i
  | .add a b => a.eval ρ + b.eval ρ
  | .sub a b => a.eval ρ - b.eval ρ
  | .mul a b => a.eval ρ * b.eval ρ
  | .neg a => -(a.eval ρ)
  | .div a b => a.eval ρ / b.eval ρ

/-- Triple of numeric values: a Blender float vector (location, etc.). -/
abbrev V3 := QExpr × QExpr × QExpr

/-- RGBA color. -/
structure Color4 where
  r : QExpr
  g : QExpr
  b : QExpr
  a : QExpr
deriving DecidableEq

/-- Exact representation of the script's angle floats: the value `q + p * π`. -/
structure PiLin where
  q : QExpr
  p : QExpr
deriving DecidableEq

/-- Embed a plain numeric expression as a `PiLin` value. -/
def PiLin.ofQ (x : QExpr) : PiLin := ⟨x, 0⟩

/-- The constant `math.pi`. -/
def PiLin.piv : PiLin := ⟨0, 1⟩

/-- Scalar multiplication `c * x`, mirroring Python's `coefficient * pi`. -/
def PiLin.qmul (c : QExpr) (x : PiLin) : PiLin := ⟨c * x.q, c * x.p⟩

/-- The real number denoted by a `PiLin` value under a valuation. -/
noncomputable def PiLin.toReal (ρ : Nat → ℚ) (x : PiLin) : ℝ :=
  (x.q.eval ρ : ℝ) + (x.p.eval ρ : ℝ) * Real.pi

/-- Python `math.radians`: degrees to radians, `d * π / 180`. -/
def radiansQ (d : QExpr) : PiLin := ⟨0, d / 180⟩

/-- Keyframe interpolation mode (Blender default on insert is BEZIER). -/
inductive Interp
  | BEZIER
  | LINEAR
deriving DecidableEq

/-- Shader node of a material node graph. -/
inductive MatNode
  | principled
  | output
  | emission (color : Color4) (strength : QExpr)
deriving DecidableEq

/-- A material datablock: node graph plus links (pairs of node indices). -/
structure Material where
  name : String
  use_nodes : Bool
  nodes : List MatNode
  links : List (Nat × Nat)
deriving DecidableEq

/-- One keyframe point of an f-curve. -/
structure Keyframe where
  frame : Int
  value : PiLin
  interpolation : Interp
deriving DecidableEq

/-- An f-curve (`data_path` and array index, e.g. rotation_euler index 2). -/
structure FCurve where
  data_path : String
  index : Int
  keyframe_points : List Keyframe
deriving DecidableEq

/-- An action datablock holding f-curves. -/
structure Action where
  name : String
  fcurves : List FCurve
deriving DecidableEq

/-- Animation data of an object (`animation_data_create` / `.action`). -/
structure AnimData where
  action : Option Action
deriving DecidableEq

/-- Camera datablock: lens, clipping, and the lens keyframes inserted via
`camera.data.keyframe_insert(data_path="lens", ...)` (frame, lens value). -/
structure CamData where
  lens : QExpr
  clip_start : QExpr
  clip_end : QExpr
  lensKeys : List (Int × QExpr)
deriving DecidableEq

/-- Kind of scene object, by the primitive that created it. -/
inductive ObjKind
  | sphere
  | torus
  | camera
  | other
deriving DecidableEq

/-- A scene object.  `radius` is the creation radius for spheres and the major
radius for tori; `locKeys` records `keyframe_insert(data_path="location")`
calls as (frame, location-at-insert).  `minor_radius` is the torus minor
radius. -/
structure Obj where
  name : String
  kind : ObjKind
  location : V3
  radius : QExpr
  minor_radius : QExpr
  selected : Bool
  materials : List String
  animation : Option AnimData
  locKeys : List (Int × V3)
  cam : Option CamData
  rotation_euler : PiLin × PiLin × PiLin
deriving DecidableEq

/-- Trace event: one mutating host-API call. -/
inductive Event
  | create (kind : ObjKind) (autoName : String) (radius : QExpr) (location : V3)
  | deleteSelected (names : List String)
  | removeMat (name : String)
  | mutate (descr : String)
  | render (animation : Bool)
  | deselectAll
deriving DecidableEq

/-- Scene render settings (`bpy.context.scene.render`). -/
structure RenderSettings where
  engine : String
  file_format : String
  ffmpeg_format : String
  ffmpeg_codec : String
  constant_rate_factor : String
  filepath : String
  resolution_x : Int
  resolution_y : Int
  resolution_percentage : Int
  fps : Int
deriving DecidableEq

/-- The whole Blender document visible to the script, plus the bookkeeping
fields `rngPos` (random stream cursor), `calls` (host-call counter for the
failure oracle), `renders` (render invocations with their `animation` flag)
and `trace` (events of all mutating host calls, in order). -/
structure Scene where
  objects : List Obj
  materials : List Material
  render : RenderSettings
  world : Color4
  bloom : Bool
  frameStart : Int
  frameEnd : Int
  frameCurrent : Int
  shadingType : String
  showFloor : Bool
  showAxisX : Bool
  showAxisY : Bool
  showCursor : Bool
  showOrigins : Bool
  active : Option String
  cursor : V3
  rngPos : Nat
  calls : Nat
  renders : List Bool
  trace : List Event
deriving DecidableEq

/-- Membership test `name in bpy.data.objects`. -/
def objExists (s : Scene) (name : String) : Bool :=
  s.objects.any (fun o => o.name == name)

/-- Update every object with the given name (names are unique in Blender). -/
def updateObjRaw (name : String) (f : Obj → Obj) (s : Scene) : Scene :=
  { s with objects := s.objects.map fun o => if o.name = name then f o else o }

/-- Look up an object by name. -/
def findObj (s : Scene) (name : String) : Option Obj :=
  s.objects.find? (fun o => o.name == name)

/-- Append an event to the trace. -/
def emit (e : Event) (s : Scene) : Scene :=
  { s with trace := s.trace ++ [e] }

/-- A generic attribute-setting host call, recorded as a `mutate` event. -/
def setAttr (descr : String) (f : Scene → Scene) (s : Scene) : Scene :=
  emit (.mutate descr) (f s)

/-- Deselect every object (the `*_add` operators do this first). -/
def clearSelection (os : List Obj) : List Obj :=
  os.map fun o => { o with selected := false }

/-- Default object record; fields are then overridden per kind. -/
def mkObj (name : String) (kind : ObjKind) : Obj :=
  { name := name, kind := kind, location := (0, 0, 0), radius := 0,
    minor_radius := 0, selected := false, materials := [], animation := none,
    locKeys := [], cam := none,
    rotation_euler := (PiLin.ofQ 0, PiLin.ofQ 0, PiLin.ofQ 0) }

/-- `bpy.ops.mesh.primitive_uv_sphere_add`: deselects all, adds a selected
sphere (auto-named "Sphere") at the given location and makes it active. -/
def addSphere (radius : QExpr) (loc : V3) (s : Scene) : Scene :=
  emit (.create .sphere "Sphere" radius loc)
    { s with
      objects := clearSelection s.objects ++
        [{ (mkObj "Sphere" .sphere) with location := loc, radius := radius, selected := true }],
      active := some "Sphere" }

/-- `bpy.ops.mesh.primitive_torus_add` (major/minor radius; the
`major_segments` tessellation argument has no scene-graph footprint here). -/
def addTorus (major minor : QExpr) (loc : V3) (s : Scene) : Scene :=
  emit (.create .torus "Torus" major loc)
    { s with
      objects := clearSelection s.objects ++
        [{ (mkObj "Torus" .torus) with
           location := loc
           radius := major
           minor_radius := minor
           selected := true }],
      active := some "Torus" }

/-- `bpy.ops.object.camera_add(location=...)`: deselects all, adds a selected,
active camera (auto-named "Camera" — the branch runs only when absent). -/
def addCamera (loc : V3) (s : Scene) : Scene :=
  emit (.create .camera "Camera" 0 loc)
    { s with
      objects := clearSelection s.objects ++
        [{ (mkObj "Camera" .camera) with
           location := loc
           selected := true
           cam := some { lens := 50, clip_start := 1/10, clip_end := 100, lensKeys := [] } }],
      active := some "Camera" }

/-- `bpy.context.object.name = newName`: rename the active object. -/
def renameActive (newName : String) (s : Scene) : Scene :=
  match s.active with
  | some n =>
      emit (.mutate ("rename " ++ newName))
        { s with
          objects := s.objects.map fun o => if o.name = n then { o with name := newName } else o,
          active := some newName }
  | none => s

/-- `bpy.ops.object.shade_smooth()`: smooths selected meshes (no field of the
model changes; the call is recorded in the trace). -/
def shadeSmooth (s : Scene) : Scene :=
  emit (.mutate "shade_smooth") s

/-- `obj.select_set(b)`. -/
def selectSet (name : String) (b : Bool) (s : Scene) : Scene :=
  emit (.mutate ("select_set " ++ name))
    (updateObjRaw name (fun o => { o with selected := b }) s)

/-- `bpy.context.view_layer.objects.active = obj`. -/
def setActive (name : String) (s : Scene) : Scene :=
  emit (.mutate ("active " ++ name)) { s with active := some name }

/-- `bpy.ops.object.origin_set(type="ORIGIN_CURSOR")`: moves the origin of
every selected object to the 3D cursor (its `location` becomes the cursor). -/
def originSet (s : Scene) : Scene :=
  emit (.mutate "origin_set")
    { s with objects := s.objects.map fun o =>
        if o.selected then { o with location := s.cursor } else o }

/-- `bpy.ops.object.delete(use_global=False)`: deletes every selected object. -/
def opsDelete (s : Scene) : Scene :=
  emit (.deleteSelected ((s.objects.filter (fun o => o.selected)).map (fun o => o.name)))
    { s with objects := s.objects.filter fun o => !o.selected }

/-- `bpy.ops.object.select_all(action='DESELECT')`. -/
def opsDeselectAll (s : Scene) : Scene :=
  emit .deselectAll { s with objects := clearSelection s.objects }

/-- `bpy.ops.render.render(animation=...)`. -/
def opsRender (animation : Bool) (s : Scene) : Scene :=
  emit (.render animation) { s with renders := s.renders ++ [animation] }

/-- `obj.location = loc`. -/
def objSetLocation (name : String) (loc : V3) (s : Scene) : Scene :=
  emit (.mutate ("location " ++ name))
    (updateObjRaw name (fun o => { o with location := loc }) s)

/-- `obj.rotation_euler = r`. -/
def objSetRotation (name : String) (r : PiLin × PiLin × PiLin) (s : Scene) : Scene :=
  emit (.mutate ("rotation_euler " ++ name))
    (updateObjRaw name (fun o => { o with rotation_euler := r }) s)

/-- `camera.data.lens = v`. -/
def camSetLens (name : String) (v : QExpr) (s : Scene) : Scene :=
  emit (.mutate ("lens " ++ name))
    (updateObjRaw name (fun o => { o with cam := o.cam.map fun c => { c with lens := v } }) s)

/-- `camera.data.clip_start = v`. -/
def camSetClipStart (name : String) (v : QExpr) (s : Scene) : Scene :=
  emit (.mutate ("clip_start " ++ name))
    (updateObjRaw name (fun o => { o with cam := o.cam.map fun c => { c with clip_start := v } }) s)

/-- `camera.data.clip_end = v`. -/
def camSetClipEnd (name : String) (v : QExpr) (s : Scene) : Scene :=
  emit (.mutate ("clip_end " ++ name))
    (updateObjRaw name (fun o => { o with cam := o.cam.map fun c => { c with clip_end := v } }) s)

/-- `obj.keyframe_insert(data_path="location", frame=f)`: records the object's
current location at frame `f`. -/
def keyframeInsertLoc (name : String) (frame : Int) (s : Scene) : Scene :=
  emit (.mutate ("keyframe location " ++ name))
    (updateObjRaw name (fun o => { o with locKeys := o.locKeys ++ [(frame, o.location)] }) s)

/-- `camera.data.keyframe_insert(data_path="lens", frame=f)`: records the
current lens value at frame `f`. -/
def keyframeInsertLens (name : String) (frame : Int) (s : Scene) : Scene :=
  emit (.mutate ("keyframe lens " ++ name))
    (updateObjRaw name
      (fun o => { o with cam := o.cam.map fun c => { c with lensKeys := c.lensKeys ++ [(frame, c.lens)] } }) s)

/-- `bpy.data.materials.new(name)`: appends a fresh material (nodes off). -/
def matNew (name : String) (s : Scene) : Scene :=
  emit (.mutate ("materials.new " ++ name))
    { s with materials := s.materials ++
        [{ name := name, use_nodes := false, nodes := [], links := [] }] }

/-- A host call mutating the material with the given name. -/
def matMod (name : String) (descr : String) (f : Material → Material) (s : Scene) : Scene :=
  emit (.mutate descr)
    { s with materials := s.materials.map fun m => if m.name = name then f m else m }

/-- `bpy.data.materials.remove(m)`. -/
def removeMaterial (name : String) (s : Scene) : Scene :=
  emit (.removeMat name)
    { s with materials := s.materials.filter fun m => m.name != name }

/-- `obj.data.materials.append(mat)` (materials referenced by name). -/
def objMatAppend (objName matName : String) (s : Scene) : Scene :=
  emit (.mutate ("materials.append " ++ objName))
    (updateObjRaw objName (fun o => { o with materials := o.materials ++ [matName] }) s)

/-- `obj.animation_data_create()`: ensures animation data exists. -/
def animDataCreate (name : String) (s : Scene) : Scene :=
  emit (.mutate ("animation_data_create " ++ name))
    (updateObjRaw name
      (fun o => { o with animation := some (o.animation.getD { action := none }) }) s)

/-- `obj.animation_data.action = bpy.data.actions.new(name=actName)`: attaches
a freshly created, empty action. -/
def setNewAction (objName actName : String) (s : Scene) : Scene :=
  emit (.mutate ("actions.new " ++ actName))
    (updateObjRaw objName
      (fun o => { o with animation := o.animation.map fun ad =>
        { ad with action := some { name := actName, fcurves := [] } } }) s)

/-- Rewrite the last element of a list. -/
def updateLast {α : Type} (f : α → α) : List α → List α
  | [] => []
  | [x] => [f x]
  | x :: y :: xs => x :: updateLast f (y :: xs)

/-- Apply `f` to the most recently added f-curve of the object's action. -/
def updateLastFCurve (objName : String) (f : FCurve → FCurve) (s : Scene) : Scene :=
  updateObjRaw objName
    (fun o => { o with animation := o.animation.map fun ad =>
      { ad with action := ad.action.map fun a =>
        { a with fcurves := updateLast f a.fcurves } } }) s

/-- `action.fcurves.new(data_path=dp, index=i)`: appends an empty f-curve. -/
def fcurveAdd (objName dp : String) (i : Int) (s : Scene) : Scene :=
  emit (.mutate ("fcurves.new " ++ objName))
    (updateObjRaw objName
      (fun o => { o with animation := o.animation.map fun ad =>
        { ad with action := ad.action.map fun a =>
          { a with fcurves := a.fcurves ++ [{ data_path := dp, index := i, keyframe_points := [] }] } } }) s)

/-- `fcurve.keyframe_points.insert(frame=f, value=v)`: appends a keyframe with
Blender's default BEZIER interpolation (the script inserts frames in
increasing order, so appending preserves the sorted keyframe list). -/
def keyInsert (objName : String) (frame : Int) (v : PiLin) (s : Scene) : Scene :=
  emit (.mutate ("keyframe_points.insert " ++ objName))
    (updateLastFCurve objName
      (fun fc => { fc with keyframe_points := fc.keyframe_points ++ [⟨frame, v, .BEZIER⟩] }) s)

/-- `k.interpolation = ip` for the keyframe at the given frame. -/
def keySetInterp (objName : String) (frame : Int) (ip : Interp) (s : Scene) : Scene :=
  emit (.mutate ("interpolation " ++ objName))
    (updateLastFCurve objName
      (fun fc => { fc with keyframe_points := fc.keyframe_points.map fun k =>
        if k.frame = frame then { k with interpolation := ip } else k }) s)

/-- Raise-or-perform wrapper for one mutating host-API call: if the failure
oracle marks the current call index, the host raises and the partial scene
state escapes as an `Except.error`; otherwise the call happens and the call
counter advances. -/
def call (fails : Nat → Bool) (f : Scene → Scene) (s : Scene) : Except Scene Scene :=
  if fails s.calls then .error s else .ok (f { s with calls := s.calls + 1 })

/-- The oracle of a run in which no host call raises. -/
def neverFails : Nat → Bool := fun _ => false

/-- Python `random.random()`: the next draw of the stream, as the symbolic
expression `var k` for the current stream position `k`. -/
def randomDraw (s : Scene) : QExpr × Scene :=
  (QExpr.var s.rngPos, { s with rngPos := s.rngPos + 1 })

/-- Constant `N_PLANETS` (line 161). -/
def N_PLANETS : Nat := 6

/-- Constant `START_FRAME` (line 162). -/
def START_FRAME : Int := 1

/-- Constant `END_FRAME` (line 163). -/
def END_FRAME : Int := 400

/-- Top-level `output_path` (line 168). -/
def output_path : String := "video.mp4"

/-- Top-level `start_location` (line 173). -/
def start_location : V3 := (20, -10, 5)

/-- Top-level `end_location` (line 174). -/
def end_location : V3 := (200, -80, 90)

/-- Top-level `start_lens` (line 175). -/
def start_lens : QExpr := 35

/-- Top-level `end_lens` (line 176). -/
def end_lens : QExpr := 35

/-- Python `"{:02d}".format n` for the planet indices in use. -/
def pad2 (n : Nat) : String :=
  if n < 10 then "0" ++ toString n else toString n

/-- Name `"Planet-{:02d}".format(n)`. -/
def planetName (n : Nat) : String := "Planet-" ++ pad2 n

/-- Name `"Radius-{:02d}".format(n)`. -/
def radiusName (n : Nat) : String := "Radius-" ++ pad2 n

/-- Name `"PlanetMat-{:02d}".format(n)`. -/
def planetMatName (n : Nat) : String := "PlanetMat-" ++ pad2 n

/-- `setup_render_settings(output_path, test_render)` (lines 6-25). -/
def setup_render_settings (fails : Nat → Bool) (path : String) (test_render : Bool)
    (s : Scene) : Except Scene Scene := do
  let s ← call fails (setAttr "render.engine" fun s =>
    { s with render := { s.render with engine := "BLENDER_EEVEE" } }) s
  let s ← call fails (setAttr "image_settings.file_format" fun s =>
    { s with render := { s.render with file_format := "FFMPEG" } }) s
  let s ← call fails (setAttr "ffmpeg.format" fun s =>
    { s with render := { s.render with ffmpeg_format := "MPEG4" } }) s
  let s ← call fails (setAttr "ffmpeg.codec" fun s =>
    { s with render := { s.render with ffmpeg_codec := "H264" } }) s
  let s ← call fails (setAttr "ffmpeg.constant_rate_factor" fun s =>
    { s with render := { s.render with constant_rate_factor := "MEDIUM" } }) s
  let s ← call fails (setAttr "render.filepath" fun s =>
    { s with render := { s.render with filepath := path } }) s
  let s ←
    if test_render then do
      let s ← call fails (setAttr "resolution_x" fun s =>
        { s with render := { s.render with resolution_x := 960 } }) s
      let s ← call fails (setAttr "resolution_y" fun s =>
        { s with render := { s.render with resolution_y := 540 } }) s
      call fails (setAttr "resolution_percentage" fun s =>
        { s with render := { s.render with resolution_percentage := 50 } }) s
    else do
      let s ← call fails (setAttr "resolution_x" fun s =>
        { s with render := { s.render with resolution_x := 1920 } }) s
      let s ← call fails (setAttr "resolution_y" fun s =>
        { s with render := { s.render with resolution_y := 1080 } }) s
      call fails (setAttr "resolution_percentage" fun s =>
        { s with render := { s.render with resolution_percentage := 100 } }) s
  call fails (setAttr "render.fps" fun s =>
    { s with render := { s.render with fps := 24 } }) s

/-- `adjust_camera_clipping(camera, clip_start, clip_end)` (lines 28-30),
always called on the object named "Camera". -/
def adjust_camera_clipping (fails : Nat → Bool) (clip_start clip_end : QExpr)
    (s : Scene) : Except Scene Scene := do
  let s ← call fails (camSetClipStart "Camera" clip_start) s
  call fails (camSetClipEnd "Camera" clip_end) s

/-- `setup_and_animate_camera(...)` (lines 32-61).  Creates the camera when
absent, otherwise makes it active and selected; sets start location, rotation
and lens; sets clipping; keyframes location and lens at the start frame; moves
location and lens to their end values; keyframes both at the end frame. -/
def setup_and_animate_camera (fails : Nat → Bool) (start_frame end_frame : Int)
    (startLoc endLoc : V3) (startLens endLens : QExpr) (s : Scene) : Except Scene Scene := do
  let s ←
    if !(objExists s "Camera") then
      call fails (addCamera startLoc) s
    else do
      let s ← call fails (setActive "Camera") s
      call fails (selectSet "Camera" true) s
  let s ← call fails (objSetLocation "Camera" startLoc) s
  let s ← call fails (objSetRotation "Camera" (radiansQ 65, PiLin.ofQ 0, radiansQ 67)) s
  let s ← call fails (camSetLens "Camera" startLens) s
  let s ← adjust_camera_clipping fails (1/10) 5000 s
  let s ← call fails (keyframeInsertLoc "Camera" start_frame) s
  let s ← call fails (keyframeInsertLens "Camera" start_frame) s
  let s ← call fails (objSetLocation "Camera" endLoc) s
  let s ← call fails (camSetLens "Camera" endLens) s
  let s ← call fails (keyframeInsertLoc "Camera" end_frame) s
  call fails (keyframeInsertLens "Camera" end_frame) s

/-- `create_sphere(radius, distance_to_sun, obj_name)` (lines 64-78). -/
def create_sphere (fails : Nat → Bool) (radius distance_to_sun : QExpr)
    (obj_name : String) (s : Scene) : Except Scene Scene := do
  let s ← call fails (addSphere radius (distance_to_sun, 0, 0)) s
  let s ← call fails (renameActive obj_name) s
  call fails shadeSmooth s

/-- `create_torus(radius, obj_name)` (lines 80-91); minor radius 0.1. -/
def create_torus (fails : Nat → Bool) (radius : QExpr) (obj_name : String)
    (s : Scene) : Except Scene Scene := do
  let s ← call fails (addTorus radius (1/10) (0, 0, 0)) s
  let s ← call fails (renameActive obj_name) s
  call fails shadeSmooth s

/-- `create_emission_shader(color, strength, mat_name)` (lines 93-119): new
material, node mode on (default Principled+Output graph), clear nodes, add an
Emission node, set its color and strength inputs, add an Output node, link
emission output 0 to output input 0 (node indices 0 → 1). -/
def create_emission_shader (fails : Nat → Bool) (color : Color4) (strength : QExpr)
    (mat_name : String) (s : Scene) : Except Scene Scene := do
  let s ← call fails (matNew mat_name) s
  let s ← call fails (matMod mat_name "use_nodes" fun m =>
    { m with use_nodes := true, nodes := [.principled, .output], links := [(0, 1)] }) s
  let s ← call fails (matMod mat_name "nodes.clear" fun m =>
    { m with nodes := [], links := [] }) s
  let s ← call fails (matMod mat_name "nodes.new Emission" fun m =>
    { m with nodes := m.nodes ++ [.emission ⟨1, 1, 1, 1⟩ 1] }) s
  let s ← call fails (matMod mat_name "emission color" fun m =>
    { m with nodes := m.nodes.map fun nd =>
        match nd with
        | .emission _ st => .emission color st
        | x => x }) s
  let s ← call fails (matMod mat_name "emission strength" fun m =>
    { m with nodes := m.nodes.map fun nd =>
        match nd with
        | .emission c _ => .emission c strength
        | x => x }) s
  let s ← call fails (matMod mat_name "nodes.new OutputMaterial" fun m =>
    { m with nodes := m.nodes ++ [.output] }) s
  call fails (matMod mat_name "links.new" fun m =>
    { m with links := m.links ++ [(0, 1)] }) s

/-- `delete_object(name)` (lines 121-127): when an object of that name exists,
select it and run the delete operator (which removes every selected object);
otherwise do nothing — no host call is made at all. -/
def delete_object (fails : Nat → Bool) (name : String) (s : Scene) : Except Scene Scene :=
  if objExists s name then do
    let s ← call fails (selectSet name true) s
    call fails opsDelete s
  else .ok s

/-- `setup_scene()` (lines 138-159): black world background, EEVEE engine with
bloom, frame range, and viewport shading/overlay configuration (the 3D view
found by `find_3dview_space` is modelled by the scene's viewport fields). -/
def setup_scene (fails : Nat → Bool) (s : Scene) : Except Scene Scene := do
  let s ← call fails (setAttr "world background" fun s =>
    { s with world := ⟨0, 0, 0, 1⟩ }) s
  let s ← call fails (setAttr "render.engine" fun s =>
    { s with render := { s.render with engine := "BLENDER_EEVEE" } }) s
  let s ← call fails (setAttr "eevee.use_bloom" fun s => { s with bloom := true }) s
  let s ← call fails (setAttr "frame_start" fun s => { s with frameStart := START_FRAME }) s
  let s ← call fails (setAttr "frame_end" fun s => { s with frameEnd := END_FRAME }) s
  let s ← call fails (setAttr "frame_current" fun s => { s with frameCurrent := START_FRAME }) s
  let s ← call fails (setAttr "shading.type" fun s => { s with shadingType := "RENDERED" }) s
  let s ← call fails (setAttr "show_floor" fun s => { s with showFloor := false }) s
  let s ← call fails (setAttr "show_axis_x" fun s => { s with showAxisX := false }) s
  let s ← call fails (setAttr "show_axis_y" fun s => { s with showAxisY := false }) s
  let s ← call fails (setAttr "show_cursor" fun s => { s with showCursor := false }) s
  call fails (setAttr "show_object_origins" fun s => { s with showOrigins := false }) s

/-- The material-cleanup loop `for m in bpy.data.materials: remove(m)`
(lines 185-186), iterating over a snapshot of the material names (the
loop's intended remove-everything semantics). -/
def removeMaterialsList (fails : Nat → Bool) : List String → Scene → Except Scene Scene
  | [], s => .ok s
  | m :: ms, s => do
    let s ← call fails (removeMaterial m) s
    removeMaterialsList fails ms s

/-- One iteration of the planet loop (lines 191-233): random radius and
distance, planet sphere, its own emission material, orbit ring sharing
"RingMat", origin to world origin, and the z-rotation action with two LINEAR
keyframes (0 at `START_FRAME`, `(2 + random()*2)*pi` at `END_FRAME`). -/
def loopBody (fails : Nat → Bool) (n : Nat) (s : Scene) : Except Scene Scene := do
  let (a1, s) := randomDraw s
  let r : QExpr := 1 + a1 * 4
  let (a2, s) := randomDraw s
  let d : QExpr := 30 + (n : QExpr) * 12 + (a2 * 4 - 2)
  let s ← create_sphere fails r d (planetName n) s
  let (c1, s) := randomDraw s
  let (c2, s) := randomDraw s
  let s ← create_emission_shader fails ⟨c1, c2, 1, 1⟩ 2 (planetMatName n) s
  let s ← call fails (objMatAppend (planetName n) (planetMatName n)) s
  let s ← create_torus fails d (radiusName n) s
  let s ← call fails (objMatAppend (radiusName n) "RingMat") s
  let s ← call fails (setActive (planetName n)) s
  let s ← call fails (selectSet (planetName n) true) s
  let s ← call fails originSet s
  let s ← call fails (animDataCreate (planetName n)) s
  let s ← call fails (setNewAction (planetName n) "RotationAction") s
  let s ← call fails (fcurveAdd (planetName n) "rotation_euler" 2) s
  let s ← call fails (keyInsert (planetName n) START_FRAME (PiLin.ofQ 0)) s
  let s ← call fails (keySetInterp (planetName n) START_FRAME .LINEAR) s
  let (a5, s) := randomDraw s
  let s ← call fails (keyInsert (planetName n) END_FRAME (PiLin.qmul (2 + a5 * 2) PiLin.piv)) s
  call fails (keySetInterp (planetName n) END_FRAME .LINEAR) s

/-- The sun block (lines 236-241): sphere of radius 12 at the origin with its
emission material (color (1, 0.66, 0.08, 1), strength 10). -/
def sunBlock (fails : Nat → Bool) (s : Scene) : Except Scene Scene := do
  let s ← create_sphere fails 12 0 "Sun" s
  let s ← create_emission_shader fails ⟨1, 66/100, 8/100, 1⟩ 10 "SunMat" s
  call fails (objMatAppend "Sun" "SunMat") s

/-- The top-level statements of the script (lines 165-247), in source order.
Each list element is one top-level statement (loop iterations unrolled). -/
def scriptSteps (fails : Nat → Bool) : List (Scene → Except Scene Scene) :=
  [setup_scene fails,
   setup_render_settings fails output_path false,
   setup_and_animate_camera fails START_FRAME END_FRAME start_location end_location
     start_lens end_lens,
   delete_object fails "Sun"] ++
  (((List.range N_PLANETS).map fun n =>
      [delete_object fails (planetName n), delete_object fails (radiusName n)]).flatten) ++
  [fun s => removeMaterialsList fails (s.materials.map (fun m => m.name)) s,
   create_emission_shader fails ⟨1, 1, 1, 1⟩ 1 "RingMat"] ++
  ((List.range N_PLANETS).map fun n => loopBody fails n) ++
  [sunBlock fails,
   call fails (opsRender true),
   call fails opsDeselectAll]

/-- Run a list of steps, stopping at the first error — exactly what the
absence of any try/except in the script means. -/
def runSteps : List (Scene → Except Scene Scene) → Scene → Except Scene Scene
  | [], s => .ok s
  | st :: L, s =>
    match st s with
    | .error e => .error e
    | .ok s' => runSteps L s'

/-- Collapse an `Except` outcome to the reached scene state. -/
def outcome : Except Scene Scene → Scene
  | .ok s => s
  | .error s => s

/-- One complete, failure-free run of the script from a given scene. -/
def run (s0 : Scene) : Scene :=
  outcome (runSteps (scriptSteps neverFails) s0)

/-- A freshly opened default document: a camera, a cube and a light, no
materials, render settings at arbitrary defaults, empty trace. -/
def initScene : Scene :=
  { objects :=
      [{ (mkObj "Camera" .camera) with
         cam := some { lens := 50, clip_start := 1/10, clip_end := 100, lensKeys := [] } },
       mkObj "Cube" .other,
       mkObj "Light" .other],
    materials := [],
    render :=
      { engine := "CYCLES", file_format := "PNG", ffmpeg_format := "MATROSKA",
        ffmpeg_codec := "NONE", constant_rate_factor := "NONE", filepath := "",
        resolution_x := 960, resolution_y := 540, resolution_percentage := 50,
        fps := 30 },
    world := ⟨1/20, 1/20, 1/20, 1⟩,
    bloom := false,
    frameStart := 1,
    frameEnd := 250,
    frameCurrent := 1,
    shadingType := "SOLID",
    showFloor := true,
    showAxisX := true,
    showAxisY := true,
    showCursor := true,
    showOrigins := true,
    active := none,
    cursor := (0, 0, 0),
    rngPos := 0,
    calls := 0,
    renders := [],
    trace := [] }

/-- The creation events of a trace: kind, creation radius (major radius for
tori) and creation location, in order. -/
def creations (t : List Event) : List (ObjKind × QExpr × V3) :=
  t.filterMap fun e =>
    match e with
    | .create k _ r l => some (k, r, l)
    | _ => none

/-- Name, kind and creation radius of every object in the scene, in order. -/
def objectSummary (s : Scene) : List (String × ObjKind × QExpr) :=
  s.objects.map fun o => (o.name, o.kind, o.radius)

/-- The delete events of a trace: each is the name list of the objects the
delete operator removed. -/
def deleteEvents (t : List Event) : List (List String) :=
  t.filterMap fun e =>
    match e with
    | .deleteSelected ns => some ns
    | _ => none

/-- The material-datablock removals of a trace, in order. -/
def removedMats (t : List Event) : List String :=
  t.filterMap fun e =>
    match e with
    | .removeMat n => some n
    | _ => none

/-- Whether an event is a render invocation. -/
def isRenderEvent : Event → Bool
  | .render _ => true
  | _ => false

/-- The symbolic radius `r = 1 + random() * 4` drawn for planet `n` (iteration
`n` consumes draws `5n` to `5n+4`, in the order radius, distance, two color
components, rotation amount). -/
def planetR (n : Nat) : QExpr := 1 + QExpr.var (5 * n) * 4

/-- The symbolic distance `d = 30 + n * 12 + (random() * 4 - 2)` drawn for
planet `n`. -/
def planetD (n : Nat) : QExpr := 30 + (n : QExpr) * 12 + (QExpr.var (5 * n + 1) * 4 - 2)

/-- The symbolic z-rotation keyframe value `(2 + random() * 2) * pi` of planet
`n`. -/
def planetRot (n : Nat) : PiLin := PiLin.qmul (2 + QExpr.var (5 * n + 4) * 2) PiLin.piv

/-- Whether an event is an object creation. -/
def isCreateEvent : Event → Bool
  | .create _ _ _ _ => true
  | _ => false

/-! ## Generic evaluation and reduction lemmas -/

@[simp] theorem QExpr.eval_const (ρ : Nat → ℚ) (q : ℚ) : QExpr.eval ρ (.const q) = q := rfl

@[simp] theorem QExpr.eval_var (ρ : Nat → ℚ) (i : Nat) : QExpr.eval ρ (.var i) = ρ i := rfl

@[simp] theorem QExpr.eval_add (ρ : Nat → ℚ) (a b : QExpr) :
    QExpr.eval ρ (a + b) = QExpr.eval ρ a + QExpr.eval ρ b := rfl

@[simp] theorem QExpr.eval_sub (ρ : Nat → ℚ) (a b : QExpr) :
    QExpr.eval ρ (a - b) = QExpr.eval ρ a - QExpr.eval ρ b := rfl

@[simp] theorem QExpr.eval_mul (ρ : Nat → ℚ) (a b : QExpr) :
    QExpr.eval ρ (a * b) = QExpr.eval ρ a * QExpr.eval ρ b := rfl

@[simp] theorem QExpr.eval_neg (ρ : Nat → ℚ) (a : QExpr) :
    QExpr.eval ρ (-a) = -(QExpr.eval ρ a) := rfl

@[simp] theorem QExpr.eval_div (ρ : Nat → ℚ) (a b : QExpr) :
    QExpr.eval ρ (a / b) = QExpr.eval ρ a / QExpr.eval ρ b := rfl

@[simp] theorem QExpr.eval_natCast (ρ : Nat → ℚ) (n : Nat) :
    QExpr.eval ρ (n : QExpr) = (n : ℚ) := rfl

@[simp] theorem QExpr.eval_ofNat (ρ : Nat → ℚ) (n : Nat) :
    QExpr.eval ρ (no_index (OfNat.ofNat n)) = OfNat.ofNat n := rfl

@[simp] theorem ok_bind (s : Scene) (f : Scene → Except Scene Scene) :
    ((Except.ok s : Except Scene Scene) >>= f) = f s := rfl

@[simp] theorem error_bind (e : Scene) (f : Scene → Except Scene Scene) :
    ((Except.error e : Except Scene Scene) >>= f) = .error e := rfl

instance : DecidableEq (Except Scene Scene) := fun x y =>
  match x, y with
  | .ok a, .ok b =>
    if h : a = b then .isTrue (by rw [h]) else .isFalse (fun hh => h (Except.ok.inj hh))
  | .error a, .error b =>
    if h : a = b then .isTrue (by rw [h]) else .isFalse (fun hh => h (Except.error.inj hh))
  | .ok _, .error _ => .isFalse (fun hh => Except.noConfusion hh)
  | .error _, .ok _ => .isFalse (fun hh => Except.noConfusion hh)

/-- A failing run of a step list stops at the first raising step: there is a
prefix that succeeded, the next step raised, and the returned error is exactly
that step's partial state. -/
theorem runSteps_error_split (L : List (Scene → Except Scene Scene)) (s e : Scene)
    (h : runSteps L s = .error e) :
    ∃ n st s', L[n]? = some st ∧ runSteps (L.take n) s = .ok s' ∧ st s' = .error e := by
  induction L generalizing s with
  | nil => simp [runSteps] at h
  | cons a L ih =>
    rw [runSteps] at h
    cases ha : a s with
    | error e' =>
      rw [ha] at h
      cases h
      exact ⟨0, a, s, by simp, rfl, ha⟩
    | ok s' =>
      rw [ha] at h
      obtain ⟨n, st, s'', h1, h2, h3⟩ := ih s' h
      refine ⟨n + 1, st, s'', by simpa using h1, ?_, h3⟩
      rw [List.take_succ_cons, runSteps, ha]
      exact h2

/-- After selecting every object of a given name and deleting the selection,
no object of that name remains. -/
theorem objExists_after_delete (name : String) (os : List Obj) :
    ((os.map (fun o => if o.name = name then { o with selected := true } else o)).filter
      (fun o => !o.selected)).any (fun o => o.name == name) = false := by
  induction os with
  | nil => rfl
  | cons o os ih =>
    simp only [List.map_cons]
    by_cases hc : o.name = name
    · simpa [hc, List.filter_cons] using ih
    · rw [if_neg hc]
      rcases hsel : o.selected with _ | _
      · simpa [List.filter_cons, hsel, hc] using ih
      · simpa [List.filter_cons, hsel] using ih

/-- Bounds for the drawn planet radius under any valuation of the draws. -/
theorem planetR_bounds (ρ : Nat → ℚ) (hρ : ∀ i, 0 ≤ ρ i ∧ ρ i < 1) (n : Nat) :
    1 ≤ (planetR n).eval ρ ∧ (planetR n).eval ρ < 5 := by
  have h := hρ (5 * n)
  simp [planetR]
  constructor <;> nlinarith [h.1, h.2]

/-- Bounds, growth and separation of the drawn planet distances. -/
theorem planetD_bounds (ρ : Nat → ℚ) (hρ : ∀ i, 0 ≤ ρ i ∧ ρ i < 1) (n : Nat) :
    28 + 12 * (n : ℚ) ≤ (planetD n).eval ρ ∧ (planetD n).eval ρ < 32 + 12 * (n : ℚ) ∧
    12 < (planetD n).eval ρ ∧ (planetD n).eval ρ < (planetD (n + 1)).eval ρ ∧
    8 < (planetD (n + 1)).eval ρ - (planetD n).eval ρ := by
  have h1 := hρ (5 * n + 1)
  have h2 := hρ (5 * (n + 1) + 1)
  have hn : (0 : ℚ) ≤ (n : ℚ) := Nat.cast_nonneg n
  simp [planetD]
  refine ⟨by nlinarith [h1.1, h1.2], by nlinarith [h1.1, h1.2], by nlinarith [h1.1, h1.2],
    ?_, ?_⟩ <;> nlinarith [h1.1, h1.2, h2.1, h2.2]

/-- The end-frame rotation keyframe value lies in `[2π, 4π)`. -/
theorem planetRot_bounds (ρ : Nat → ℚ) (hρ : ∀ i, 0 ≤ ρ i ∧ ρ i < 1) (n : Nat) :
    2 * Real.pi ≤ PiLin.toReal ρ (planetRot n) ∧ PiLin.toReal ρ (planetRot n) < 4 * Real.pi := by
  have h := hρ (5 * n + 4)
  have h0 : (0 : ℝ) ≤ (ρ (5 * n + 4) : ℝ) := by exact_mod_cast h.1
  have h1 : ((ρ (5 * n + 4) : ℝ)) < 1 := by exact_mod_cast h.2
  simp [planetRot, PiLin.qmul, PiLin.piv, PiLin.toReal]
  constructor <;> nlinarith [Real.pi_pos]
/-! ## The claims -/

/-- C1: a completed run creates exactly `N_PLANETS = 6` planet spheres named
"Planet-00" … "Planet-05", one orbit-ring torus per planet named "Radius-00" …
"Radius-05" centered at the world origin whose major radius equals that
planet's distance `d`, and exactly one sun sphere "Sun" of radius 12 at the
origin, and it triggers exactly one movie render of the animation.  The first
equation lists every object of the final scene (name, kind, creation radius);
the second lists every creation event (each planet sphere of radius
`planetR n` is created at `(planetD n, 0, 0)` and the matching torus has major
radius `planetD n`); the third lists every object's final location (rings and
sun at the origin; planets moved onto the origin by `origin_set`); the last
one records the single `render(animation=True)` call. -/
theorem C1_objects_rings_sun_and_render :
    objectSummary (run initScene) =
      [("Camera", .camera, 0), ("Cube", .other, 0), ("Light", .other, 0),
       ("Planet-00", .sphere, planetR 0), ("Radius-00", .torus, planetD 0),
       ("Planet-01", .sphere, planetR 1), ("Radius-01", .torus, planetD 1),
       ("Planet-02", .sphere, planetR 2), ("Radius-02", .torus, planetD 2),
       ("Planet-03", .sphere, planetR 3), ("Radius-03", .torus, planetD 3),
       ("Planet-04", .sphere, planetR 4), ("Radius-04", .torus, planetD 4),
       ("Planet-05", .sphere, planetR 5), ("Radius-05", .torus, planetD 5),
       ("Sun", .sphere, 12)] ∧
    creations (run initScene).trace =
      [(.sphere, planetR 0, (planetD 0, 0, 0)), (.torus, planetD 0, (0, 0, 0)),
       (.sphere, planetR 1, (planetD 1, 0, 0)), (.torus, planetD 1, (0, 0, 0)),
       (.sphere, planetR 2, (planetD 2, 0, 0)), (.torus, planetD 2, (0, 0, 0)),
       (.sphere, planetR 3, (planetD 3, 0, 0)), (.torus, planetD 3, (0, 0, 0)),
       (.sphere, planetR 4, (planetD 4, 0, 0)), (.torus, planetD 4, (0, 0, 0)),
       (.sphere, planetR 5, (planetD 5, 0, 0)), (.torus, planetD 5, (0, 0, 0)),
       (.sphere, 12, (0, 0, 0))] ∧
    (run initScene).objects.map (fun o => (o.name, o.location)) =
      [("Camera", end_location), ("Cube", (0, 0, 0)), ("Light", (0, 0, 0)),
       ("Planet-00", (0, 0, 0)), ("Radius-00", (0, 0, 0)),
       ("Planet-01", (0, 0, 0)), ("Radius-01", (0, 0, 0)),
       ("Planet-02", (0, 0, 0)), ("Radius-02", (0, 0, 0)),
       ("Planet-03", (0, 0, 0)), ("Radius-03", (0, 0, 0)),
       ("Planet-04", (0, 0, 0)), ("Radius-04", (0, 0, 0)),
       ("Planet-05", (0, 0, 0)), ("Radius-05", (0, 0, 0)),
       ("Sun", (0, 0, 0))] ∧
    (run initScene).renders = [true] :=
  ⟨by decide, by decide, by decide, by decide⟩

/-- C2 (code evidence): the script inserts camera location and lens keyframes
at both the start frame 1 and the end frame 400, and the location does change
from (20, -10, 5) to (200, -80, 90); but the lens keyframes carry the value 35
at both frames — `start_lens = end_lens = 35` — so the lens (zoom) never
changes, contradicting the claimed "different, wider ending lens" and the
code's own comments. -/
theorem C2_camera_keyframes_lens_constant :
    (findObj (run initScene) "Camera").map
        (fun o => (o.locKeys, o.cam.map (fun c => c.lensKeys))) =
      some ([((1 : Int), start_location), ((400 : Int), end_location)],
        some [((1 : Int), (35 : QExpr)), ((400 : Int), (35 : QExpr))]) ∧
    start_lens = end_lens :=
  ⟨by decide, by decide⟩

/-- C3 (counterexample): running the script a second time, on the scene left
by a first run from the default document, deletes the camera — an object that
is neither "Sun" nor any "Planet-nn"/"Radius-nn".  The camera exists after run
one, the first cleanup deletion of run two removes "Camera" together with
"Sun" (the delete operator removes every selected object and the camera-setup
phase left the camera selected), and no camera exists at the end of run two. -/
theorem C3_camera_deleted_by_cleanup :
    objExists (run initScene) "Camera" = true ∧
    ["Camera", "Sun"] ∈ deleteEvents (run (run initScene)).trace ∧
    objExists (run (run initScene)) "Camera" = false :=
  ⟨by decide, by decide, by decide⟩

/-- C3 (amended): at the start of a run on the scene left by a previous run,
the script deletes by exact name-matching the objects "Sun", "Planet-nn" and
"Radius-nn" and removes every material from the material datablock, and it
does so before creating any new object; but each deletion removes the whole
current selection, and the camera-setup phase leaves the camera selected, so
the first named object found ("Sun") is deleted together with the camera.
The second run's new events (the double-run trace minus the first run's
prefix) contain exactly these delete events and exactly the eight material
removals, and none of either kind occurs after the first creation event. -/
theorem C3_cleanup_deletes_named_objects :
    deleteEvents ((run (run initScene)).trace.drop (run initScene).trace.length) =
      [["Camera", "Sun"], ["Planet-00"], ["Radius-00"], ["Planet-01"], ["Radius-01"],
       ["Planet-02"], ["Radius-02"], ["Planet-03"], ["Radius-03"], ["Planet-04"],
       ["Radius-04"], ["Planet-05"], ["Radius-05"]] ∧
    removedMats ((run (run initScene)).trace.drop (run initScene).trace.length) =
      ["RingMat", "PlanetMat-00", "PlanetMat-01", "PlanetMat-02", "PlanetMat-03",
       "PlanetMat-04", "PlanetMat-05", "SunMat"] ∧
    deleteEvents (((run (run initScene)).trace.drop
      (run initScene).trace.length).dropWhile (fun e => !(isCreateEvent e))) = [] ∧
    removedMats (((run (run initScene)).trace.drop
      (run initScene).trace.length).dropWhile (fun e => !(isCreateEvent e))) = [] :=
  ⟨by decide, by decide, by decide, by decide⟩
/-- C4: `setup_render_settings` with `test_render = False`, from any scene
state, returns normally with the render settings set to: the given output
path "video.mp4" as the single configured artifact path, FFMPEG file format
with MPEG4 container and H264 codec, 1920x1080 at 100 percent, and 24 fps —
and those are exactly the render settings the completed run leaves behind. -/
theorem C4_render_output_settings (s : Scene) :
    (∃ s', setup_render_settings neverFails output_path false s = .ok s' ∧
      s'.render = { engine := "BLENDER_EEVEE"
                    file_format := "FFMPEG"
                    ffmpeg_format := "MPEG4"
                    ffmpeg_codec := "H264"
                    constant_rate_factor := "MEDIUM"
                    filepath := "video.mp4"
                    resolution_x := 1920
                    resolution_y := 1080
                    resolution_percentage := 100
                    fps := 24 }) ∧
    (run initScene).render = { engine := "BLENDER_EEVEE"
                               file_format := "FFMPEG"
                               ffmpeg_format := "MPEG4"
                               ffmpeg_codec := "H264"
                               constant_rate_factor := "MEDIUM"
                               filepath := "video.mp4"
                               resolution_x := 1920
                               resolution_y := 1080
                               resolution_percentage := 100
                               fps := 24 } :=
  ⟨⟨_, rfl, rfl⟩, by decide⟩

/-- C5: every solar-system object the run creates carries an emission-shader
material: the material datablocks after the run are exactly "RingMat" (color
(1,1,1,1), strength 1), one "PlanetMat-nn" per planet (color (draw, draw, 1, 1)
— the 3rd and 4th random draws of iteration `n` — strength 2) and "SunMat"
(color (1, 0.66, 0.08, 1), strength 10), each with a node graph of exactly one
Emission node linked to one Material Output node (link 0 → 1); and the
material slots are: each planet its own "PlanetMat-nn", every ring the shared
"RingMat", the sun "SunMat" (the camera, cube and light predate the run). -/
theorem C5_emission_materials :
    (run initScene).materials =
      [{ name := "RingMat", use_nodes := true,
         nodes := [.emission ⟨1, 1, 1, 1⟩ 1, .output], links := [(0, 1)] },
       { name := "PlanetMat-00", use_nodes := true,
         nodes := [.emission ⟨.var 2, .var 3, 1, 1⟩ 2, .output], links := [(0, 1)] },
       { name := "PlanetMat-01", use_nodes := true,
         nodes := [.emission ⟨.var 7, .var 8, 1, 1⟩ 2, .output], links := [(0, 1)] },
       { name := "PlanetMat-02", use_nodes := true,
         nodes := [.emission ⟨.var 12, .var 13, 1, 1⟩ 2, .output], links := [(0, 1)] },
       { name := "PlanetMat-03", use_nodes := true,
         nodes := [.emission ⟨.var 17, .var 18, 1, 1⟩ 2, .output], links := [(0, 1)] },
       { name := "PlanetMat-04", use_nodes := true,
         nodes := [.emission ⟨.var 22, .var 23, 1, 1⟩ 2, .output], links := [(0, 1)] },
       { name := "PlanetMat-05", use_nodes := true,
         nodes := [.emission ⟨.var 27, .var 28, 1, 1⟩ 2, .output], links := [(0, 1)] },
       { name := "SunMat", use_nodes := true,
         nodes := [.emission ⟨1, 66/100, 8/100, 1⟩ 10, .output], links := [(0, 1)] }] ∧
    (run initScene).objects.map (fun o => (o.name, o.materials)) =
      [("Camera", []), ("Cube", []), ("Light", []),
       ("Planet-00", ["PlanetMat-00"]), ("Radius-00", ["RingMat"]),
       ("Planet-01", ["PlanetMat-01"]), ("Radius-01", ["RingMat"]),
       ("Planet-02", ["PlanetMat-02"]), ("Radius-02", ["RingMat"]),
       ("Planet-03", ["PlanetMat-03"]), ("Radius-03", ["RingMat"]),
       ("Planet-04", ["PlanetMat-04"]), ("Radius-04", ["RingMat"]),
       ("Planet-05", ["PlanetMat-05"]), ("Radius-05", ["RingMat"]),
       ("Sun", ["SunMat"])] :=
  ⟨by decide, by decide⟩
/-- C6: every planet's z-axis rotation is pinned by exactly two keyframes on a
freshly created action named "RotationAction", on a single f-curve for
`rotation_euler` index 2: value 0 at the start frame 1 and the symbolic value
`(2 + draw * 2) * π` at the end frame 400, both LINEAR; and under every
valuation of the draws in `[0, 1)` that end value lies in `[2π, 4π)` — a
random, constant rotation speed per planet.  The objects carrying animation
data after the run are exactly the six planets. -/
theorem C6_rotation_keyframes (ρ : Nat → ℚ) (hρ : ∀ i, 0 ≤ ρ i ∧ ρ i < 1) :
    (run initScene).objects.filterMap
        (fun o => o.animation.map (fun ad => (o.name, ad))) =
      (List.range N_PLANETS).map (fun n => (planetName n,
        (⟨some ⟨"RotationAction",
          [⟨"rotation_euler", 2,
            [⟨START_FRAME, PiLin.ofQ 0, .LINEAR⟩,
             ⟨END_FRAME, planetRot n, .LINEAR⟩]⟩]⟩⟩ : AnimData))) ∧
    ∀ n, 2 * Real.pi ≤ PiLin.toReal ρ (planetRot n) ∧
      PiLin.toReal ρ (planetRot n) < 4 * Real.pi :=
  ⟨by decide, fun n => planetRot_bounds ρ hρ n⟩

/-- C6 witness: at the valuation in which every draw is 1/2, the end keyframe
value of planet 0 lies in `[2π, 4π)`. -/
theorem C6_rotation_keyframes_witness :
    2 * Real.pi ≤ PiLin.toReal (fun _ => (1 : ℚ)/2) (planetRot 0) ∧
    PiLin.toReal (fun _ => (1 : ℚ)/2) (planetRot 0) < 4 * Real.pi :=
  (C6_rotation_keyframes (fun _ => (1 : ℚ)/2) (by intro i; norm_num)).2 0

/-- C7: execution is sequential and the render comes last: the completed run's
trace contains exactly one render event; everything from that event on is
exactly the render followed by the final deselect-all, so every other scene
mutation — setup, cleanup, creations, keyframes — happens before the render
call and only the deselection happens after it; and the render operator is
invoked exactly once, with animation=True. -/
theorem C7_render_once_and_last :
    (run initScene).trace.countP isRenderEvent = 1 ∧
    (run initScene).trace.dropWhile (fun e => !(isRenderEvent e)) =
      [Event.render true, Event.deselectAll] ∧
    (run initScene).renders = [true] :=
  ⟨by decide, by decide, by decide⟩

/-- C8: the script has no error handling: for any failure oracle, if the run
of the script's statement list raises, then there is a prefix of statements
that completed, the next statement's host call raised, the exception
propagated out unhandled (the whole run returns that very error), and the
scene is left exactly in the partial state reached at the raise. -/
theorem C8_unhandled_error_propagates (fails : Nat → Bool) (s0 e : Scene)
    (h : runSteps (scriptSteps fails) s0 = .error e) :
    ∃ n st s', (scriptSteps fails)[n]? = some st ∧
      runSteps ((scriptSteps fails).take n) s0 = .ok s' ∧
      st s' = .error e ∧
      outcome (runSteps (scriptSteps fails) s0) = e := by
  obtain ⟨n, st, s', h1, h2, h3⟩ := runSteps_error_split (scriptSteps fails) s0 e h
  exact ⟨n, st, s', h1, h2, h3, by rw [h]; rfl⟩

/-- C8 witness: with an oracle on which the very first host call raises, the
run raises immediately, leaving the scene in its initial state, and the
propagation theorem applies to it. -/
theorem C8_unhandled_error_propagates_witness :
    runSteps (scriptSteps (fun k => k == 0)) initScene = .error initScene ∧
    ∃ n st s', (scriptSteps (fun k => k == 0))[n]? = some st ∧
      runSteps ((scriptSteps (fun k => k == 0)).take n) initScene = .ok s' ∧
      st s' = .error initScene ∧
      outcome (runSteps (scriptSteps (fun k => k == 0)) initScene) = initScene :=
  ⟨by decide,
   C8_unhandled_error_propagates (fun k => k == 0) initScene initScene (by decide)⟩

/-- C9: for every planet `n` the generated radius is `planetR n = 1 + draw*4`
and the generated distance is `planetD n = 30 + n*12 + (draw*4 - 2)` (the
creation events pin these to the run); under every valuation of the draws in
`[0, 1)`, the radius lies in `[1, 5)`, the distance lies in
`[28 + 12n, 32 + 12n)`, the distances are strictly increasing with consecutive
gaps above 8, and every planet's distance exceeds the sun radius 12. -/
theorem C9_radius_distance_invariants (ρ : Nat → ℚ) (hρ : ∀ i, 0 ≤ ρ i ∧ ρ i < 1) :
    creations (run initScene).trace =
      [(.sphere, planetR 0, (planetD 0, 0, 0)), (.torus, planetD 0, (0, 0, 0)),
       (.sphere, planetR 1, (planetD 1, 0, 0)), (.torus, planetD 1, (0, 0, 0)),
       (.sphere, planetR 2, (planetD 2, 0, 0)), (.torus, planetD 2, (0, 0, 0)),
       (.sphere, planetR 3, (planetD 3, 0, 0)), (.torus, planetD 3, (0, 0, 0)),
       (.sphere, planetR 4, (planetD 4, 0, 0)), (.torus, planetD 4, (0, 0, 0)),
       (.sphere, planetR 5, (planetD 5, 0, 0)), (.torus, planetD 5, (0, 0, 0)),
       (.sphere, 12, (0, 0, 0))] ∧
    ∀ n, (1 ≤ (planetR n).eval ρ ∧ (planetR n).eval ρ < 5) ∧
      (28 + 12 * (n : ℚ) ≤ (planetD n).eval ρ ∧ (planetD n).eval ρ < 32 + 12 * (n : ℚ)) ∧
      12 < (planetD n).eval ρ ∧
      (planetD n).eval ρ < (planetD (n + 1)).eval ρ ∧
      8 < (planetD (n + 1)).eval ρ - (planetD n).eval ρ :=
  ⟨by decide, fun n =>
    ⟨planetR_bounds ρ hρ n,
     ⟨(planetD_bounds ρ hρ n).1, (planetD_bounds ρ hρ n).2.1⟩,
     (planetD_bounds ρ hρ n).2.2.1,
     (planetD_bounds ρ hρ n).2.2.2.1,
     (planetD_bounds ρ hρ n).2.2.2.2⟩⟩

/-- C9 witness: at the valuation in which every draw is 1/2, planet 2 has its
radius in `[1, 5)`, its distance in `[52, 56)`, lies outside the sun and is
separated from planet 3 by more than 8. -/
theorem C9_radius_distance_invariants_witness :
    (1 ≤ (planetR 2).eval (fun _ => (1 : ℚ)/2) ∧ (planetR 2).eval (fun _ => (1 : ℚ)/2) < 5) ∧
    (28 + 12 * ((2 : ℕ) : ℚ) ≤ (planetD 2).eval (fun _ => (1 : ℚ)/2) ∧
      (planetD 2).eval (fun _ => (1 : ℚ)/2) < 32 + 12 * ((2 : ℕ) : ℚ)) ∧
    12 < (planetD 2).eval (fun _ => (1 : ℚ)/2) ∧
    (planetD 2).eval (fun _ => (1 : ℚ)/2) < (planetD (2 + 1)).eval (fun _ => (1 : ℚ)/2) ∧
    8 < (planetD (2 + 1)).eval (fun _ => (1 : ℚ)/2) - (planetD 2).eval (fun _ => (1 : ℚ)/2) :=
  (C9_radius_distance_invariants (fun _ => (1 : ℚ)/2) (by intro i; norm_num)).2 2

/-- C10: `delete_object(name)` never raises: when no object of that exact name
exists it makes no host call at all — whatever the failure oracle, it returns
the scene unchanged — and when such an object exists (in a run whose host
calls succeed) it returns normally with no object of that name remaining. -/
theorem C10_delete_object_total (fails : Nat → Bool) (name : String) (s : Scene) :
    (objExists s name = false → delete_object fails name s = .ok s) ∧
    (objExists s name = true →
      ∃ s', delete_object neverFails name s = .ok s' ∧ objExists s' name = false) := by
  constructor
  · intro h
    simp [delete_object, h]
  · intro h
    refine ⟨opsDelete { (selectSet name true { s with calls := s.calls + 1 }) with
      calls := s.calls + 1 + 1 }, ?_, ?_⟩
    · rw [delete_object, if_pos h]
      rfl
    · simp only [opsDelete, selectSet, emit, updateObjRaw, objExists]
      exact objExists_after_delete name s.objects

/-- C10 witness: in the default document, deleting the absent "Sun" under an
all-failing oracle is a no-op returning the scene unchanged, and deleting the
present "Cube" removes it. -/
theorem C10_delete_object_total_witness :
    delete_object (fun _ => true) "Sun" initScene = .ok initScene ∧
    ∃ s', delete_object neverFails "Cube" initScene = .ok s' ∧
      objExists s' "Cube" = false :=
  ⟨(C10_delete_object_total (fun _ => true) "Sun" initScene).1 (by decide),
   (C10_delete_object_total neverFails "Cube" initScene).2 (by decide)⟩
end Planets
